import Mathlib

/-!
Shallow embedding of the FloodImpact impact-compositing pipeline
(`src/python/fld_impact_gdal.py`, mirrored by `fld_impact_rio.py`).

Raster grids are modelled as functions `Fin h → Fin w → _` (row i, column j),
matching numpy's `array[i, j]` indexing.  Floating-point values are modelled
as exact rationals; a numpy operation whose float result is NaN/inf (division
by zero) is modelled as `Option.none`, since the source assigns it no defined
value.  `uint8` cells are modelled as `ℕ` (the stored values, 0..255).
-/

namespace FloodImpact

/-- The fixed `amenity_groups` dictionary of `amen_group`
(`fld_impact_gdal.py` lines 185-214), in Python dict insertion order. -/
def amenity_groups : List (String × List String) :=
  [ ("food", ["bar", "biergarten", "cafe", "drinking_water", "fast_food",
              "food_court", "ice_cream", "pub", "restaurant"]),
    ("education", ["college", "driving_school", "kindergarten", "language_school",
                   "library", "toy_library", "music_school", "school", "university"]),
    ("transportation", ["bicycle_parking", "bicycle_repair_station", "bicycle_rental",
                        "boat_rental", "boat_sharing", "bus_station", "car_rental",
                        "car_sharing", "car_wash", "vehicle_inspection", "charging_station",
                        "ferry_terminal", "fuel", "grit_bin", "motorcycle_parking",
                        "parking", "parking_entrance", "parking_space", "taxi",
                        "kick-scooter_rental"]),
    ("financial", ["atm", "bank", "bureau_de_change"]),
    ("healthcare", ["baby_hatch", "clinic", "dentist", "doctors", "hospital", "nursing_home",
                    "pharmacy", "social_facility", "veterinary"]),
    ("entertainment", ["arts_centre", "brothel", "casino", "cinema", "community_centre",
                       "conference_centre", "events_venue", "fountain", "gambling",
                       "love_hotel", "nightclub", "planetarium", "public_bookcase",
                       "social_centre", "stripclub", "studio", "swingerclub", "theatre"]),
    ("others", ["animal_boarding", "animal_breeding", "animal_shelter", "baking_oven",
                "childcare", "clock", "crematorium", "dive_centre",
                "funeral_hall", "grave_yard", "gym", "hunting_stand",
                "internet_cafe", "kitchen", "kneipp_water_cure", "lounger", "marketplace",
                "monastery", "photo_booth", "place_of_mourning", "place_of_worship",
                "public_bath", "public_building", "refugee_site", "vending_machine",
                "user defined"]),
    ("public_service", ["courthouse", "embassy", "fire_station", "police", "post_box",
                        "post_depot", "post_office", "prison", "ranger_station", "townhall"]),
    ("facilities", ["bbq", "bench", "dog_toilet", "give_box", "shelter", "shower",
                    "telephone", "toilets", "water_point", "watering_place"]),
    ("waste_management", ["sanitary_dump_station", "recycling", "waste_basket",
                          "waste_disposal", "waste_transfer_station"]) ]

/-- Model of `amen_group` (lines 181-220): scan the groups in dict order, return the
first group whose word-list contains the tag; `None` when no list does. -/
def amen_group (s : String) : Option String :=
  (amenity_groups.find? (fun g => g.2.contains s)).map (fun g => g.1)

/-- Tests that `p` matches the leading characters of `s` (what `re` needs at one
position for the literal part of the pattern). -/
def leadMatch : List Char → List Char → Bool
  | [], _ => true
  | _ :: _, [] => false
  | p :: ps, c :: cs => p = c && leadMatch ps cs

/-- Lazy capture `(.*?)"` after the literal: the shortest run of characters
up to the next double quote.  In default mode Python's `.` does not match a
newline, so a newline (or the end of the input) before any closing quote
means the pattern cannot complete at this position. -/
def takeUntilQuote : List Char → Option (List Char)
  | [] => none
  | c :: cs =>
    if c = '"' then some []
    else if c = '\n' then none
    else (takeUntilQuote cs).map (fun l => c :: l)

/-- The literal part of the pattern `"amenity"=>"(.*?)"`: the 12 characters
`"amenity"=>"` that must appear verbatim before the capture group. -/
def amenityPat : List Char := "\"amenity\"=>\"".data

/-- First match of `re.findall(r'"amenity"=>"(.*?)"', x)` (line 227): the
scanner tries the whole pattern at each position left to right; when the
literal matches but the lazy capture cannot complete there (a newline or
the end of input before a closing quote), the scanner resumes at the next
position, as `re` does. -/
def findAmenityMatch : List Char → Option (List Char)
  | [] => none
  | c :: cs =>
    if leadMatch amenityPat (c :: cs) then
      match takeUntilQuote ((c :: cs).drop amenityPat.length) with
      | some v => some v
      | none => findAmenityMatch cs
    else findAmenityMatch cs

/-- Model of `old_amen_group` (lines 222-231): non-string input (modelled `none`)
gives `None`; otherwise extract the first `"amenity"=>"v"` match and
delegate to `amen_group`; no match gives `None`. -/
def old_amen_group : Option String → Option String
  | none => none
  | some x =>
    match findAmenityMatch x.data with
    | some v => amen_group (String.mk v)
    | none => none

/-! ### Rasters and numeric primitives -/

/-- Row-major list of a grid's cells, as numpy reductions (`np.min`,
`np.max`, `.sum`) see them. -/
def gridVals {α : Type} (h w : ℕ) (g : Fin h → Fin w → α) : List α :=
  (List.ofFn fun i : Fin h => List.ofFn fun j : Fin w => g i j).flatten

/-- Model of `np.min`: none on an empty array (numpy raises there). -/
def listMin : List ℚ → Option ℚ
  | [] => none
  | x :: xs => some (xs.foldl min x)

/-- Model of `np.max`: none on an empty array (numpy raises there). -/
def listMax : List ℚ → Option ℚ
  | [] => none
  | x :: xs => some (xs.foldl max x)

/-- Python `int(...)` on a float: truncation toward zero. -/
def truncQ (q : ℚ) : ℤ := if 0 ≤ q then ⌊q⌋ else ⌈q⌉

/-- numpy `.round()` / Python `round`: round half to even. -/
def roundHalfEven (q : ℚ) : ℤ :=
  let f := ⌊q⌋
  let r := q - f
  if r < 1/2 then f
  else if 1/2 < r then f + 1
  else if f % 2 = 0 then f else f + 1

/-- Python `round(x, 2)` (two decimal places, half to even). -/
def round2 (q : ℚ) : ℚ := (roundHalfEven (q * 100) : ℚ) / 100

/-- numpy C-cast of a nonnegative float in `[0, 256)` to `uint8`:
truncation toward zero.  (Out-of-range or NaN input is undefined behavior
in numpy; no theorem below relies on this function there.) -/
def toUint8 (q : ℚ) : ℕ := (⌊q⌋).toNat

/-- Model of `normalize_array` (lines 233-235): `(array - min) * (high / (max - min))`.
When `max = min` the scale factor divides by zero, so every cell is
`0 * inf = NaN` in numpy — no defined value, modelled `none`.  On an empty
array `np.min` raises, also modelled `none`. -/
def normalize_array (high : ℚ) {h w : ℕ} (g : Fin h → Fin w → ℚ) :
    Option (Fin h → Fin w → ℚ) :=
  match listMin (gridVals h w g), listMax (gridVals h w g) with
  | some mn, some mx =>
      if mx = mn then none
      else some (fun i j => (g i j - mn) * (high / (mx - mn)))
  | _, _ => none

/-! ### Population channel (`get_population`, lines 102-121).
Reprojection of the population raster onto the flood grid is delegated to
the warping collaborator (`gdal.Warp`); the model takes the already
aligned population raster as input. -/

/-- Line 117: `pop_array[np.logical_not(np.isin(floodmap_array, 1))] = 0`. -/
def maskPop {h w : ℕ} (flood : Fin h → Fin w → ℤ) (pop : Fin h → Fin w → ℚ) :
    Fin h → Fin w → ℚ :=
  fun i j => if flood i j = 1 then pop i j else 0

/-- Model of `get_population`: `(pop_count, normalize_array(pop_array), np.max(pop_array))`. -/
def get_population {h w : ℕ} (flood : Fin h → Fin w → ℤ) (pop : Fin h → Fin w → ℚ) :
    ℤ × Option (Fin h → Fin w → ℚ) × Option ℚ :=
  (truncQ (gridVals h w (maskPop flood pop)).sum,
   normalize_array 255 (maskPop flood pop),
   listMax (gridVals h w (maskPop flood pop)))

/-! ### Cropland channel (`get_crop`, lines 123-136). -/

/-- Line 133: `np.where((flood_array == 1) & (crop_array == 2), 1, 0)`. -/
def intersection_array {h w : ℕ} (flood crop : Fin h → Fin w → ℤ) :
    Fin h → Fin w → ℤ :=
  fun i j => if flood i j = 1 ∧ crop i j = 2 then 1 else 0

/-- Model of `np.count_nonzero` over a grid. -/
def countNonzero {h w : ℕ} (g : Fin h → Fin w → ℤ) : ℕ :=
  ((gridVals h w g).filter (fun v => v != 0)).length

/-- Model of `get_crop`:
`(round(count_nonzero(intersection) * pixel_area, 2), intersection * 255)`. -/
def get_crop {h w : ℕ} (flood crop : Fin h → Fin w → ℤ) (area : ℚ) :
    ℚ × (Fin h → Fin w → ℤ) :=
  (round2 (countNonzero (intersection_array flood crop) * area),
   fun i j => intersection_array flood crop i j * 255)

/-! ### Amenity channel (`get_osm_table`, lines 138-179). -/

/-- The flood grid's affine geotransform entries used by the source:
`geo[0]` origin x, `geo[1]` pixel width, `geo[3]` origin y, `geo[5]`
pixel height. -/
structure GeoTransform where
  originX : ℚ
  pixelWidth : ℚ
  originY : ℚ
  pixelHeight : ℚ
deriving DecidableEq

/-- Line 42: `abs(flood_geo[5] * flood_geo[1]) * 12348543360 / 10000`. -/
def pixel_area (gt : GeoTransform) : ℚ :=
  |gt.pixelHeight * gt.pixelWidth| * 12348543360 / 10000

/-- One input amenity point: geometry coordinates and the raw `amenity`
field (none models a missing value). -/
structure OsmPoint where
  geomX : ℚ
  geomY : ℚ
  amenity : Option String
deriving DecidableEq

/-- Line 143: `((osm_gdf.geometry.x - flood_geo[0]) / flood_geo[1]).round()`. -/
def computeCol (gt : GeoTransform) (p : OsmPoint) : ℤ :=
  roundHalfEven ((p.geomX - gt.originX) / gt.pixelWidth)

/-- Line 144: `((osm_gdf.geometry.y - flood_geo[3]) / flood_geo[5]).round()`. -/
def computeRow (gt : GeoTransform) (p : OsmPoint) : ℤ :=
  roundHalfEven ((p.geomY - gt.originY) / gt.pixelHeight)

/-- Line 147: `(x >= 0) & (x < shape[1]) & (y >= 0) & (y < shape[0])`. -/
def inBoundsB (w h : ℕ) (x y : ℤ) : Bool :=
  0 ≤ x && x < (w : ℤ) && 0 ≤ y && y < (h : ℤ)

/-- The in-bounds filter of line 147, applied before any flood-mask lookup. -/
def inBoundsPts (w h : ℕ) (gt : GeoTransform) (pts : List OsmPoint) : List OsmPoint :=
  pts.filter fun p => inBoundsB w h (computeCol gt p) (computeRow gt p)

/-- Model of `amen_group` applied through `.apply` to a possibly missing field value
(a missing value is not `in` any word-list, hence `None`). -/
def amen_group_opt : Option String → Option String
  | none => none
  | some s => amen_group s

/-- Line 157: `sq_ft_cost = 8.25`. -/
def sq_ft_cost : ℚ := 825/100

/-- The `amenity_cost` dictionary (lines 158-170).  `amen_group` only ever
produces the ten group names or `None`, so the catch-all arm (a `KeyError`
in Python) is unreachable from this pipeline. -/
def amenity_cost : Option String → ℚ
  | some "food" => 3500 * sq_ft_cost
  | some "education" => 173727 * sq_ft_cost
  | some "transportation" => 360 * sq_ft_cost
  | some "financial" => 3400 * sq_ft_cost
  | some "healthcare" => 300000 * sq_ft_cost
  | some "entertainment" => 40000 * sq_ft_cost
  | some "others" => 3000 * sq_ft_cost
  | some "public_service" => 11000 * sq_ft_cost
  | some "facilities" => 10 * sq_ft_cost
  | some "waste_management" => 4000 * sq_ft_cost
  | none => 0
  | some _ => 0

/-- One row of the indexed GeoDataFrame: pixel column `x`, pixel row `y`,
resolved category, resolved cost. -/
structure IndexedPoint where
  x : ℤ
  y : ℤ
  amenity : Option String
  cost : ℚ
deriving DecidableEq

/-- Pixel indexing (lines 143-144), classification (line 150) and cost
assignment (line 172) for one point. -/
def indexPoint (gt : GeoTransform) (p : OsmPoint) : IndexedPoint :=
  { x := computeCol gt p
    y := computeRow gt p
    amenity := amen_group_opt p.amenity
    cost := amenity_cost (amen_group_opt p.amenity) }

/-- Lookup `floodmap_array[y, x]`: defined only for in-bounds indices (an
out-of-bounds fancy index raises `IndexError` in numpy). -/
def floodAt {h w : ℕ} (flood : Fin h → Fin w → ℤ) (y x : ℤ) : Option ℤ :=
  if hy : 0 ≤ y ∧ y < (h : ℤ) then
    if hx : 0 ≤ x ∧ x < (w : ℤ) then
      some (flood ⟨y.toNat, by omega⟩ ⟨x.toNat, by omega⟩)
    else none
  else none

/-- Rows `osm_gdf.loc[floodmap_array[osm_gdf['y'], osm_gdf['x']] == 1, ...]`
(lines 174-179): the retained rows — in-bounds points whose pixel is
flooded — carrying category, pixel and cost. -/
def retainedPts {h w : ℕ} (flood : Fin h → Fin w → ℤ) (gt : GeoTransform)
    (pts : List OsmPoint) : List IndexedPoint :=
  ((inBoundsPts w h gt pts).map (indexPoint gt)).filter
    fun q => floodAt flood q.y q.x == some 1

/-- Line 79: `location_df['cost'].sum()`; pandas sums an empty frame to 0. -/
def costSum (pts : List IndexedPoint) : ℚ := (pts.map (fun p => p.cost)).sum

/-! ### Merge phase of `impact` (lines 44-63): the shared 4-band `uint8`
array, band-2 scatter-write, and alpha derivation. -/

/-- The 4-band impact array: `impact_array[i, j, b]` with `uint8` cells. -/
def ImpactArr (h w : ℕ) := Fin h → Fin w → Fin 4 → ℕ

/-- Line 45: `np.zeros((h, w, 4), dtype=np.uint8)`. -/
def initImpact (h w : ℕ) : ImpactArr h w := fun _ _ _ => 0

/-- Lines 54-55: `impact_array[:,:,b0] = g`. -/
def assignBand {h w : ℕ} (a : ImpactArr h w) (b0 : ℕ) (g : Fin h → Fin w → ℕ) :
    ImpactArr h w :=
  fun i j b => if (b : ℕ) = b0 then g i j else a i j b

/-- One element of the fancy-indexed band-2 assignment: write `v` at row
`y`, column `x` of band 2. -/
def setBand2At {h w : ℕ} (a : ImpactArr h w) (y x : ℤ) (v : ℕ) : ImpactArr h w :=
  fun i j b => if (b : ℕ) = 2 ∧ (i : ℤ) = y ∧ (j : ℤ) = x then v else a i j b

/-- Line 60: `impact_array[ys, xs, 2] = vs`, element-wise writes in frame
order; numpy resolves duplicate indices last-write-wins. -/
def scatterBand2 {h w : ℕ} (a : ImpactArr h w) (wrs : List (ℤ × ℤ × ℕ)) :
    ImpactArr h w :=
  wrs.foldl (fun acc wr => setBand2At acc wr.1 wr.2.1 wr.2.2) a

/-- The values written to band 2 (lines 59-60):
`location_df['cost'].values * 255 / location_df['cost'].max()`, cast to
`uint8`.  An empty frame gives `max() = NaN`, but the fancy-indexed
assignment with empty index arrays writes nothing, so no scale factor is
ever evaluated — modelled by the `none` arm.  (A nonempty frame whose
costs are all zero would give `0 * 255 / 0 = NaN` in numpy, an undefined
write; no theorem below relies on that case.) -/
def band2Writes (pts : List IndexedPoint) : List (ℤ × ℤ × ℕ) :=
  match listMax (pts.map (fun p => p.cost)) with
  | none => []
  | some mc => pts.map (fun p => (p.y, p.x, toUint8 (p.cost * 255 / mc)))

/-- Line 63: `impact_array[(np.count_nonzero(impact_array, axis=2) != 0), 3] = 255`:
set alpha to 255 where any of the four bands (band 3 still
holding its initial zeros) is nonzero; leave it unchanged elsewhere. -/
def setAlpha {h w : ℕ} (a : ImpactArr h w) : ImpactArr h w :=
  fun i j b =>
    if (b : ℕ) = 3 ∧ (a i j 0 ≠ 0 ∨ a i j 1 ≠ 0 ∨ a i j 2 ≠ 0 ∨ a i j 3 ≠ 0)
    then 255 else a i j b

/-- The impact array just before the alpha derivation: band 0 := population
channel (line 54), band 1 := cropland channel (line 55), band 2
scatter-written (line 60), band 3 still all zero. -/
def preMerge {h w : ℕ} (pop crop : Fin h → Fin w → ℕ)
    (wrs : List (ℤ × ℤ × ℕ)) : ImpactArr h w :=
  scatterBand2 (assignBand (assignBand (initImpact h w) 0 pop) 1 crop) wrs

/-- The single-threaded merge after the three channel futures are joined
(lines 54-63): band 0 := population channel, band 1 := cropland channel,
scatter band 2, then derive alpha. -/
def mergePhase {h w : ℕ} (pop crop : Fin h → Fin w → ℕ)
    (wrs : List (ℤ × ℤ × ℕ)) : ImpactArr h w :=
  setAlpha (preMerge pop crop wrs)

/-! ### Cost derivation and the whole `impact` run (lines 39-100). -/

/-- Line 66: `pop_impact_cost = 326.5 * 8.25`. -/
def pop_impact_cost : ℚ := (3265/10) * (825/100)

/-- Line 70: `cost_per_hectare = 1071.6 * (1 - 0.243)`. -/
def cost_per_hectare : ℚ := (10716/10) * (1 - 243/1000)

/-- Everything `impact` derives from its inputs (file writing and report
formatting are external collaborators). -/
structure ImpactResult (h w : ℕ) where
  pop_count : ℤ
  popChannel : Option (Fin h → Fin w → ℚ)
  max_pop : Option ℚ
  crop_hectares : ℚ
  cropChannel : Fin h → Fin w → ℤ
  retained : List IndexedPoint
  building_cost : ℚ
  residential_cost : ℚ
  crop_impact_cost : ℚ
  total_cost : ℚ
  impactOut : Option (ImpactArr h w)

/-- The `impact` pipeline (lines 39-100) on already-aligned rasters: channel
computations, merge phase, and the aggregate cost figures printed at the
end.  `impactOut` is `none` exactly when the population channel is
undefined (NaN normalization), since band 0 is cast from it. -/
def impactRun {h w : ℕ} (flood crop : Fin h → Fin w → ℤ)
    (pop : Fin h → Fin w → ℚ) (gt : GeoTransform) (pts : List OsmPoint) :
    ImpactResult h w :=
  let pr := get_population flood pop
  let cr := get_crop flood crop (pixel_area gt)
  let retained := retainedPts flood gt pts
  { pop_count := pr.1
    popChannel := pr.2.1
    max_pop := pr.2.2
    crop_hectares := cr.1
    cropChannel := cr.2
    retained := retained
    building_cost := costSum retained
    residential_cost := pr.1 * pop_impact_cost
    crop_impact_cost := cr.1 * cost_per_hectare
    total_cost := costSum retained + pr.1 * pop_impact_cost + cr.1 * cost_per_hectare
    impactOut := pr.2.1.map fun n =>
      mergePhase (fun i j => toUint8 (n i j)) (fun i j => (cr.2 i j).toNat)
        (band2Writes retained) }

/-! ### Helper lemmas -/

theorem leadMatch_append (p r : List Char) : leadMatch p (p ++ r) = true := by
  induction p with
  | nil => rfl
  | cons c cs ih => simp [leadMatch, ih]

theorem takeUntilQuote_append (l r : List Char) (hq : '"' ∉ l) (hn : '\n' ∉ l) :
    takeUntilQuote (l ++ '"' :: r) = some l := by
  induction l with
  | nil => rfl
  | cons c cs ih =>
    simp only [List.mem_cons, not_or] at hq hn
    simp [takeUntilQuote, Ne.symm hq.1, Ne.symm hn.1, ih hq.2 hn.2]

theorem findAmenityMatch_at_start (r v : List Char)
    (hr : takeUntilQuote r = some v) :
    findAmenityMatch (amenityPat ++ r) = some v := by
  rw [show amenityPat ++ r = '"' :: ("amenity\"=>\"".data ++ r) from rfl]
  rw [findAmenityMatch]
  rw [show ('"' :: ("amenity\"=>\"".data ++ r)) = amenityPat ++ r from rfl]
  simp [leadMatch_append, List.drop_left, hr]

theorem blob_data (v rest : String) :
    ("\"amenity\"=>\"" ++ v ++ "\"" ++ rest).data
      = amenityPat ++ (v.data ++ '"' :: rest.data) := by
  simp [String.data_append, amenityPat]

theorem old_amen_group_agrees (v rest : String) (hq : '"' ∉ v.data)
    (hn : '\n' ∉ v.data) :
    old_amen_group (some ("\"amenity\"=>\"" ++ v ++ "\"" ++ rest)) = amen_group v := by
  rw [old_amen_group, blob_data,
    findAmenityMatch_at_start _ _ (takeUntilQuote_append _ rest.data hq hn)]

theorem foldl_min_le (xs : List ℚ) (a : ℚ) : xs.foldl min a ≤ a := by
  induction xs generalizing a with
  | nil => simp
  | cons x xs ih => exact le_trans (ih (min a x)) (min_le_left a x)

theorem foldl_min_le_mem (xs : List ℚ) (a x : ℚ) (hx : x ∈ xs) :
    xs.foldl min a ≤ x := by
  induction xs generalizing a with
  | nil => simp at hx
  | cons y ys ih =>
    rcases List.mem_cons.1 hx with rfl | hx
    · exact le_trans (foldl_min_le ys (min a x)) (min_le_right a x)
    · exact ih (min a y) hx

theorem listMin_le {l : List ℚ} {m x : ℚ} (hm : listMin l = some m) (hx : x ∈ l) :
    m ≤ x := by
  cases l with
  | nil => simp at hx
  | cons y ys =>
    simp only [listMin, Option.some.injEq] at hm
    subst hm
    rcases List.mem_cons.1 hx with rfl | hx
    · exact foldl_min_le ys x
    · exact foldl_min_le_mem ys y x hx

theorem le_foldl_max (xs : List ℚ) (a : ℚ) : a ≤ xs.foldl max a := by
  induction xs generalizing a with
  | nil => simp
  | cons x xs ih => exact le_trans (le_max_left a x) (ih (max a x))

theorem le_foldl_max_mem (xs : List ℚ) (a x : ℚ) (hx : x ∈ xs) :
    x ≤ xs.foldl max a := by
  induction xs generalizing a with
  | nil => simp at hx
  | cons y ys ih =>
    rcases List.mem_cons.1 hx with rfl | hx
    · exact le_trans (le_max_right a x) (le_foldl_max ys (max a x))
    · exact ih (max a y) hx

theorem le_listMax {l : List ℚ} {m x : ℚ} (hm : listMax l = some m) (hx : x ∈ l) :
    x ≤ m := by
  cases l with
  | nil => simp at hx
  | cons y ys =>
    simp only [listMax, Option.some.injEq] at hm
    subst hm
    rcases List.mem_cons.1 hx with rfl | hx
    · exact le_foldl_max ys x
    · exact le_foldl_max_mem ys y x hx

theorem mem_gridVals {h w : ℕ} (g : Fin h → Fin w → ℚ) (i : Fin h) (j : Fin w) :
    g i j ∈ gridVals h w g := by
  simp only [gridVals, List.mem_flatten, List.mem_ofFn]
  exact ⟨List.ofFn fun j : Fin w => g i j, ⟨i, rfl⟩, (List.mem_ofFn _ _).2 ⟨j, rfl⟩⟩

theorem scatterBand2_preserve {h w : ℕ} (wrs : List (ℤ × ℤ × ℕ))
    (a : ImpactArr h w) (i : Fin h) (j : Fin w) (b : Fin 4) (hb : (b : ℕ) ≠ 2) :
    scatterBand2 a wrs i j b = a i j b := by
  induction wrs generalizing a with
  | nil => rfl
  | cons wr ws ih =>
    show scatterBand2 (setBand2At a wr.1 wr.2.1 wr.2.2) ws i j b = a i j b
    rw [ih]
    simp [setBand2At, hb]

theorem scatterBand2_nonzero {h w : ℕ} (wrs : List (ℤ × ℤ × ℕ))
    (a : ImpactArr h w) (i : Fin h) (j : Fin w)
    (hnz : scatterBand2 a wrs i j 2 ≠ 0) :
    a i j 2 ≠ 0 ∨ ∃ wr ∈ wrs, wr.1 = (i : ℤ) ∧ wr.2.1 = (j : ℤ) := by
  induction wrs generalizing a with
  | nil => exact Or.inl hnz
  | cons wr ws ih =>
    have hnz' : scatterBand2 (setBand2At a wr.1 wr.2.1 wr.2.2) ws i j 2 ≠ 0 := hnz
    rcases ih _ hnz' with hset | ⟨w', hw', hxy⟩
    · by_cases hc : (i : ℤ) = wr.1 ∧ (j : ℤ) = wr.2.1
      · exact Or.inr ⟨wr, List.mem_cons_self wr ws, hc.1.symm, hc.2.symm⟩
      · refine Or.inl ?_
        simpa [setBand2At, hc] using hset
    · exact Or.inr ⟨w', List.mem_cons_of_mem wr hw', hxy⟩

theorem setAlpha_preserve {h w : ℕ} (a : ImpactArr h w) (i : Fin h) (j : Fin w)
    (b : Fin 4) (hb : (b : ℕ) ≠ 3) : setAlpha a i j b = a i j b := by
  simp [setAlpha, hb]

theorem setAlpha_band3 {h w : ℕ} (a : ImpactArr h w) (i : Fin h) (j : Fin w) :
    setAlpha a i j 3
      = if a i j 0 ≠ 0 ∨ a i j 1 ≠ 0 ∨ a i j 2 ≠ 0 ∨ a i j 3 ≠ 0
        then 255 else a i j 3 := by
  simp only [setAlpha, show ((3 : Fin 4) : ℕ) = 3 from rfl, true_and, if_true]

theorem preMerge_band0 {h w : ℕ} (pop crop : Fin h → Fin w → ℕ)
    (wrs : List (ℤ × ℤ × ℕ)) (i : Fin h) (j : Fin w) :
    preMerge pop crop wrs i j 0 = pop i j := by
  rw [preMerge, scatterBand2_preserve _ _ _ _ _ (by decide)]
  simp [assignBand]

theorem preMerge_band1 {h w : ℕ} (pop crop : Fin h → Fin w → ℕ)
    (wrs : List (ℤ × ℤ × ℕ)) (i : Fin h) (j : Fin w) :
    preMerge pop crop wrs i j 1 = crop i j := by
  rw [preMerge, scatterBand2_preserve _ _ _ _ _ (by decide)]
  simp [assignBand]

theorem preMerge_band3 {h w : ℕ} (pop crop : Fin h → Fin w → ℕ)
    (wrs : List (ℤ × ℤ × ℕ)) (i : Fin h) (j : Fin w) :
    preMerge pop crop wrs i j 3 = 0 := by
  rw [preMerge, scatterBand2_preserve _ _ _ _ _ (by decide)]
  simp [assignBand, initImpact, show ((3 : Fin 4) : ℕ) = 3 from rfl]

theorem mergePhase_band0 {h w : ℕ} (pop crop : Fin h → Fin w → ℕ)
    (wrs : List (ℤ × ℤ × ℕ)) (i : Fin h) (j : Fin w) :
    mergePhase pop crop wrs i j 0 = pop i j := by
  rw [mergePhase, setAlpha_preserve _ _ _ _ (by decide), preMerge_band0]

theorem mergePhase_band1 {h w : ℕ} (pop crop : Fin h → Fin w → ℕ)
    (wrs : List (ℤ × ℤ × ℕ)) (i : Fin h) (j : Fin w) :
    mergePhase pop crop wrs i j 1 = crop i j := by
  rw [mergePhase, setAlpha_preserve _ _ _ _ (by decide), preMerge_band1]

theorem mergePhase_band2 {h w : ℕ} (pop crop : Fin h → Fin w → ℕ)
    (wrs : List (ℤ × ℤ × ℕ)) (i : Fin h) (j : Fin w) :
    mergePhase pop crop wrs i j 2 = preMerge pop crop wrs i j 2 := by
  rw [mergePhase, setAlpha_preserve _ _ _ _ (by decide)]

theorem mergePhase_band3 {h w : ℕ} (pop crop : Fin h → Fin w → ℕ)
    (wrs : List (ℤ × ℤ × ℕ)) (i : Fin h) (j : Fin w) :
    mergePhase pop crop wrs i j 3
      = if mergePhase pop crop wrs i j 0 ≠ 0 ∨ mergePhase pop crop wrs i j 1 ≠ 0
           ∨ mergePhase pop crop wrs i j 2 ≠ 0
        then 255 else 0 := by
  have e0 : setAlpha (preMerge pop crop wrs) i j 0 = preMerge pop crop wrs i j 0 :=
    setAlpha_preserve _ _ _ _ (by decide)
  have e1 : setAlpha (preMerge pop crop wrs) i j 1 = preMerge pop crop wrs i j 1 :=
    setAlpha_preserve _ _ _ _ (by decide)
  have e2 : setAlpha (preMerge pop crop wrs) i j 2 = preMerge pop crop wrs i j 2 :=
    setAlpha_preserve _ _ _ _ (by decide)
  rw [mergePhase, setAlpha_band3, preMerge_band3, e0, e1, e2]
  simp

theorem band2Writes_mem {wr : ℤ × ℤ × ℕ} {pts : List IndexedPoint}
    (hwr : wr ∈ band2Writes pts) :
    ∃ p ∈ pts, wr.1 = p.y ∧ wr.2.1 = p.x := by
  rw [band2Writes] at hwr
  cases hmc : listMax (pts.map (fun p => p.cost)) with
  | none => rw [hmc] at hwr; simp at hwr
  | some mc =>
    rw [hmc] at hwr
    rcases List.mem_map.1 hwr with ⟨p, hp, rfl⟩
    exact ⟨p, hp, rfl, rfl⟩

/-! ### Claim theorems -/

/-- C1: in the impact raster produced by the merge phase, the alpha band
(band 3) is 255 exactly at the pixels where at least one of bands 0-2 is
nonzero, and 0 at every other pixel. -/
theorem alpha_channel_invariant {h w : ℕ} (pop crop : Fin h → Fin w → ℕ)
    (wrs : List (ℤ × ℤ × ℕ)) (i : Fin h) (j : Fin w) :
    (mergePhase pop crop wrs i j 3 = 255 ↔
      (mergePhase pop crop wrs i j 0 ≠ 0 ∨ mergePhase pop crop wrs i j 1 ≠ 0
        ∨ mergePhase pop crop wrs i j 2 ≠ 0)) ∧
    (¬(mergePhase pop crop wrs i j 0 ≠ 0 ∨ mergePhase pop crop wrs i j 1 ≠ 0
        ∨ mergePhase pop crop wrs i j 2 ≠ 0) →
      mergePhase pop crop wrs i j 3 = 0) := by
  rw [mergePhase_band3]
  by_cases hc : mergePhase pop crop wrs i j 0 ≠ 0 ∨ mergePhase pop crop wrs i j 1 ≠ 0
      ∨ mergePhase pop crop wrs i j 2 ≠ 0
  · simp [hc]
  · simp [hc]

/-- C10: the merge phase modifies only bands 2 and 3: band 0 stays exactly
the population channel and band 1 exactly the cropland channel, and band 2
is nonzero only at pixels of retained amenity points. -/
theorem merge_frame_property {h w : ℕ} (pop crop : Fin h → Fin w → ℕ)
    (pts : List IndexedPoint) :
    (∀ (i : Fin h) (j : Fin w), mergePhase pop crop (band2Writes pts) i j 0 = pop i j) ∧
    (∀ (i : Fin h) (j : Fin w), mergePhase pop crop (band2Writes pts) i j 1 = crop i j) ∧
    (∀ (i : Fin h) (j : Fin w), mergePhase pop crop (band2Writes pts) i j 2 ≠ 0 →
      ∃ p ∈ pts, p.y = (i : ℤ) ∧ p.x = (j : ℤ)) := by
  refine ⟨mergePhase_band0 pop crop _, mergePhase_band1 pop crop _, ?_⟩
  intro i j hnz
  rw [mergePhase_band2, preMerge] at hnz
  rcases scatterBand2_nonzero _ _ i j hnz with hbase | ⟨wr, hwr, hi, hj⟩
  · exact absurd (by simp [assignBand, initImpact, show ((2 : Fin 4) : ℕ) = 2 from rfl]) hbase
  · rcases band2Writes_mem hwr with ⟨p, hp, hy, hx⟩
    exact ⟨p, hp, hy ▸ hi, hx ▸ hj⟩

/-- C5: when no amenity points remain after filtering, the cost maximum is
undefined but no scale factor is ever evaluated: the band-2 write list is
empty, band 2 of the merged raster stays all-zero, and the infrastructure
cost sum is 0. -/
theorem empty_amenity_set {h w : ℕ} (flood : Fin h → Fin w → ℤ)
    (gt : GeoTransform) (pts : List OsmPoint) (pop crop : Fin h → Fin w → ℕ)
    (hemp : retainedPts flood gt pts = []) :
    listMax ((retainedPts flood gt pts).map (fun p => p.cost)) = none ∧
    band2Writes (retainedPts flood gt pts) = [] ∧
    costSum (retainedPts flood gt pts) = 0 ∧
    ∀ (i : Fin h) (j : Fin w),
      mergePhase pop crop (band2Writes (retainedPts flood gt pts)) i j 2 = 0 := by
  rw [hemp]
  refine ⟨rfl, rfl, rfl, ?_⟩
  intro i j
  rw [show band2Writes [] = [] from rfl, mergePhase_band2, preMerge]
  show assignBand (assignBand (initImpact h w) 0 pop) 1 crop i j 2 = 0
  simp [assignBand, initImpact, show ((2 : Fin 4) : ℕ) = 2 from rfl]

theorem empty_amenity_set_witness :
    retainedPts (fun _ _ => 1 : Fin 1 → Fin 1 → ℤ) ⟨0, 1, 0, -1⟩ [] = [] ∧
    band2Writes (retainedPts (fun _ _ => 1 : Fin 1 → Fin 1 → ℤ) ⟨0, 1, 0, -1⟩ []) = [] ∧
    costSum (retainedPts (fun _ _ => 1 : Fin 1 → Fin 1 → ℤ) ⟨0, 1, 0, -1⟩ []) = 0 := by
  have hemp : retainedPts (fun _ _ => 1 : Fin 1 → Fin 1 → ℤ) ⟨0, 1, 0, -1⟩ [] = [] := rfl
  have := empty_amenity_set (fun _ _ => 1 : Fin 1 → Fin 1 → ℤ) ⟨0, 1, 0, -1⟩ []
    (fun _ _ => 0) (fun _ _ => 0) hemp
  exact ⟨hemp, this.2.1, this.2.2.1⟩

/-- C6: a point whose computed pixel column or row is out of grid bounds is
dropped by the in-bounds filter before any flood-mask lookup (every lookup
actually performed is in bounds), and it contributes nothing to the
retained rows, the cost sum, or the band-2 writes. -/
theorem oob_point_filtering {h w : ℕ} (flood : Fin h → Fin w → ℤ)
    (gt : GeoTransform) (pts₁ pts₂ : List OsmPoint) (q : OsmPoint)
    (hq : inBoundsB w h (computeCol gt q) (computeRow gt q) = false) :
    (∀ pts : List OsmPoint, ∀ p ∈ (inBoundsPts w h gt pts).map (indexPoint gt),
        (floodAt flood p.y p.x).isSome) ∧
    retainedPts flood gt (pts₁ ++ q :: pts₂) = retainedPts flood gt (pts₁ ++ pts₂) ∧
    costSum (retainedPts flood gt (pts₁ ++ q :: pts₂))
      = costSum (retainedPts flood gt (pts₁ ++ pts₂)) ∧
    band2Writes (retainedPts flood gt (pts₁ ++ q :: pts₂))
      = band2Writes (retainedPts flood gt (pts₁ ++ pts₂)) := by
  have hsafe : ∀ pts : List OsmPoint, ∀ p ∈ (inBoundsPts w h gt pts).map (indexPoint gt),
      (floodAt flood p.y p.x).isSome := by
    intro pts p hp
    rcases List.mem_map.1 hp with ⟨p₀, hp₀, rfl⟩
    rcases List.mem_filter.1 hp₀ with ⟨_, hb⟩
    simp only [inBoundsB, Bool.and_eq_true, decide_eq_true_eq] at hb
    simp [floodAt, indexPoint, hb.1.1.1, hb.1.1.2, hb.1.2, hb.2]
  have hdrop : retainedPts flood gt (pts₁ ++ q :: pts₂)
      = retainedPts flood gt (pts₁ ++ pts₂) := by
    simp [retainedPts, inBoundsPts, List.filter_append, List.filter_cons, hq]
  exact ⟨hsafe, hdrop, by rw [hdrop], by rw [hdrop]⟩

theorem oob_point_filtering_witness :
    inBoundsB 1 1 (computeCol ⟨0, 1, 0, -1⟩ ⟨5, 0, none⟩)
        (computeRow ⟨0, 1, 0, -1⟩ ⟨5, 0, none⟩) = false ∧
    retainedPts (fun _ _ => 1 : Fin 1 → Fin 1 → ℤ) ⟨0, 1, 0, -1⟩
        [⟨0, 0, some "restaurant"⟩, ⟨5, 0, none⟩]
      = retainedPts (fun _ _ => 1 : Fin 1 → Fin 1 → ℤ) ⟨0, 1, 0, -1⟩
        [⟨0, 0, some "restaurant"⟩] ∧
    costSum (retainedPts (fun _ _ => 1 : Fin 1 → Fin 1 → ℤ) ⟨0, 1, 0, -1⟩
        [⟨0, 0, some "restaurant"⟩, ⟨5, 0, none⟩])
      = costSum (retainedPts (fun _ _ => 1 : Fin 1 → Fin 1 → ℤ) ⟨0, 1, 0, -1⟩
        [⟨0, 0, some "restaurant"⟩]) := by
  have hq : inBoundsB 1 1 (computeCol ⟨0, 1, 0, -1⟩ ⟨5, 0, none⟩)
      (computeRow ⟨0, 1, 0, -1⟩ ⟨5, 0, none⟩) = false := by
    norm_num [inBoundsB, computeCol, computeRow, roundHalfEven]
  have := oob_point_filtering (fun _ _ => 1 : Fin 1 → Fin 1 → ℤ) ⟨0, 1, 0, -1⟩
    [⟨0, 0, some "restaurant"⟩] [] ⟨5, 0, none⟩ hq
  exact ⟨hq, this.2.1, this.2.2.1⟩


/-- C7: the intersection mask is 1 exactly where flood is 1 and the cropland
class is 2 (0 elsewhere), the hectares figure is the intersection count
times the pixel area rounded to two decimals, and the cropland channel is
binary with values 0 and 255. -/
theorem cropland_channel_correct {h w : ℕ} (flood crop : Fin h → Fin w → ℤ)
    (area : ℚ) (i : Fin h) (j : Fin w) :
    (intersection_array flood crop i j = 1 ↔ (flood i j = 1 ∧ crop i j = 2)) ∧
    (intersection_array flood crop i j = 0 ↔ ¬(flood i j = 1 ∧ crop i j = 2)) ∧
    (get_crop flood crop area).1
      = round2 ((countNonzero (intersection_array flood crop) : ℚ) * area) ∧
    ((get_crop flood crop area).2 i j = 0 ∨ (get_crop flood crop area).2 i j = 255) := by
  by_cases hc : flood i j = 1 ∧ crop i j = 2 <;>
    simp [intersection_array, get_crop, hc]

/-- C8: with a nonzero value range, min-max scaling over the full masked
array is defined, every normalized value lies in [0, 255], any pixel
holding the raw maximum maps to 255, and any pixel holding the raw minimum
maps to 0. -/
theorem population_normalization_bounds {h w : ℕ} (g : Fin h → Fin w → ℚ)
    (mn mx : ℚ) (hmn : listMin (gridVals h w g) = some mn)
    (hmx : listMax (gridVals h w g) = some mx) (hne : mx ≠ mn) :
    ∃ n : Fin h → Fin w → ℚ, normalize_array 255 g = some n ∧
      (∀ (i : Fin h) (j : Fin w), n i j = (g i j - mn) * (255 / (mx - mn))) ∧
      (∀ (i : Fin h) (j : Fin w), 0 ≤ n i j ∧ n i j ≤ 255) ∧
      (∀ (i : Fin h) (j : Fin w), g i j = mx → n i j = 255) ∧
      (∀ (i : Fin h) (j : Fin w), g i j = mn → n i j = 0) := by
  refine ⟨fun i j => (g i j - mn) * (255 / (mx - mn)), ?_, fun i j => rfl, ?_, ?_, ?_⟩
  · rw [normalize_array, hmn, hmx]
    show (if mx = mn then none
      else some fun i j => (g i j - mn) * (255 / (mx - mn)))
        = some fun i j => (g i j - mn) * (255 / (mx - mn))
    rw [if_neg hne]
  · intro i j
    have h1 : mn ≤ g i j := listMin_le hmn (mem_gridVals g i j)
    have h2 : g i j ≤ mx := le_listMax hmx (mem_gridVals g i j)
    have hpos : 0 < mx - mn := by
      rcases lt_or_eq_of_le (le_trans h1 h2) with hlt | heq
      · linarith
      · exact absurd heq.symm hne
    constructor
    · exact mul_nonneg (by linarith) (div_nonneg (by norm_num) hpos.le)
    · have hfac : 0 ≤ 255 / (mx - mn) := div_nonneg (by norm_num) hpos.le
      calc (g i j - mn) * (255 / (mx - mn))
          ≤ (mx - mn) * (255 / (mx - mn)) :=
            mul_le_mul_of_nonneg_right (by linarith) hfac
        _ = 255 := by field_simp
  · intro i j hij
    have hpos : mx - mn ≠ 0 := sub_ne_zero.2 hne
    show (g i j - mn) * (255 / (mx - mn)) = 255
    rw [hij]
    field_simp
  · intro i j hij
    show (g i j - mn) * (255 / (mx - mn)) = 0
    rw [hij]
    ring

theorem population_normalization_bounds_witness :
    listMin (gridVals 1 2 (fun _ j => ((j : ℕ) : ℚ))) = some 0 ∧
    listMax (gridVals 1 2 (fun _ j => ((j : ℕ) : ℚ))) = some 1 ∧
    (1 : ℚ) ≠ 0 ∧
    ∃ n : Fin 1 → Fin 2 → ℚ,
      normalize_array 255 (fun _ j => ((j : ℕ) : ℚ)) = some n ∧
      (∀ (i : Fin 1) (j : Fin 2), n i j = (((j : ℕ) : ℚ) - 0) * (255 / (1 - 0))) ∧
      (∀ (i : Fin 1) (j : Fin 2), 0 ≤ n i j ∧ n i j ≤ 255) ∧
      (∀ (i : Fin 1) (j : Fin 2), ((j : ℕ) : ℚ) = 1 → n i j = 255) ∧
      (∀ (i : Fin 1) (j : Fin 2), ((j : ℕ) : ℚ) = 0 → n i j = 0) := by
  have hmn : listMin (gridVals 1 2 (fun _ j => ((j : ℕ) : ℚ))) = some 0 := by
    norm_num [gridVals, listMin, List.ofFn_succ, List.foldl]
  have hmx : listMax (gridVals 1 2 (fun _ j => ((j : ℕ) : ℚ))) = some 1 := by
    norm_num [gridVals, listMax, List.ofFn_succ, List.foldl]
  exact ⟨hmn, hmx, by norm_num,
    population_normalization_bounds (fun _ j => ((j : ℕ) : ℚ)) 0 1 hmn hmx (by norm_num)⟩

/-- C9: residential cost is the population count times 326.5 times 8.25,
cropland cost is the hectares times 1071.6 times (1 - 0.243),
infrastructure cost is the raw sum of retained amenity point costs, and the
total is their sum. -/
theorem cost_derivation_correct {h w : ℕ} (flood crop : Fin h → Fin w → ℤ)
    (pop : Fin h → Fin w → ℚ) (gt : GeoTransform) (pts : List OsmPoint) :
    (impactRun flood crop pop gt pts).residential_cost
      = ((impactRun flood crop pop gt pts).pop_count : ℚ) * ((3265/10) * (825/100)) ∧
    (impactRun flood crop pop gt pts).crop_impact_cost
      = (impactRun flood crop pop gt pts).crop_hectares * ((10716/10) * (1 - 243/1000)) ∧
    (impactRun flood crop pop gt pts).building_cost
      = ((retainedPts flood gt pts).map (fun p => p.cost)).sum ∧
    (impactRun flood crop pop gt pts).total_cost
      = (impactRun flood crop pop gt pts).building_cost
        + (impactRun flood crop pop gt pts).residential_cost
        + (impactRun flood crop pop gt pts).crop_impact_cost :=
  ⟨rfl, rfl, rfl, rfl⟩


theorem retainedPts_eq_nil_of_no_flood {h w : ℕ} (flood : Fin h → Fin w → ℤ)
    (gt : GeoTransform) (pts : List OsmPoint) (hf : ∀ i j, flood i j ≠ 1) :
    retainedPts flood gt pts = [] := by
  rw [retainedPts, List.filter_eq_nil_iff]
  intro q hq
  rcases List.mem_map.1 hq with ⟨p₀, hp₀, rfl⟩
  rcases List.mem_filter.1 hp₀ with ⟨_, hb⟩
  simp only [inBoundsB, Bool.and_eq_true, decide_eq_true_eq] at hb
  simp [floodAt, indexPoint, hb.1.1.1, hb.1.1.2, hb.1.2, hb.2, hf]

/-- C3: on a value range of zero width (here a uniform 2 by 2 population
array of 3), `normalize_array` has no defined result: the scale factor is a
division by zero and every cell becomes NaN, not a constant or zero
channel. -/
theorem degenerate_normalization_eval :
    normalize_array 255 (fun _ _ => (3 : ℚ) : Fin 2 → Fin 2 → ℚ) = none := by
  have hvals : gridVals 2 2 (fun _ _ => (3 : ℚ)) = [3, 3, 3, 3] := by
    simp [gridVals, List.ofFn_succ]
  have hmn : listMin (gridVals 2 2 (fun _ _ => (3 : ℚ))) = some 3 := by
    rw [hvals]; norm_num [listMin, List.foldl]
  have hmx : listMax (gridVals 2 2 (fun _ _ => (3 : ℚ))) = some 3 := by
    rw [hvals]; norm_num [listMax, List.foldl]
  rw [normalize_array, hmn, hmx]
  simp

/-- C2: on a flood mask with zero flooded pixels, the scalar outputs are 0
and the retained amenity set is empty, but the population channel — hence
the four-band impact raster — has no defined (all-zero) value: its
normalization divides by zero. -/
theorem empty_flood_pipeline_eval :
    (impactRun (fun _ _ => 0 : Fin 2 → Fin 2 → ℤ) (fun _ _ => 2) (fun _ _ => 7)
        ⟨0, 1, 0, -1⟩ [⟨0, 0, some "restaurant"⟩]).pop_count = 0 ∧
    (impactRun (fun _ _ => 0 : Fin 2 → Fin 2 → ℤ) (fun _ _ => 2) (fun _ _ => 7)
        ⟨0, 1, 0, -1⟩ [⟨0, 0, some "restaurant"⟩]).crop_hectares = 0 ∧
    (impactRun (fun _ _ => 0 : Fin 2 → Fin 2 → ℤ) (fun _ _ => 2) (fun _ _ => 7)
        ⟨0, 1, 0, -1⟩ [⟨0, 0, some "restaurant"⟩]).building_cost = 0 ∧
    (impactRun (fun _ _ => 0 : Fin 2 → Fin 2 → ℤ) (fun _ _ => 2) (fun _ _ => 7)
        ⟨0, 1, 0, -1⟩ [⟨0, 0, some "restaurant"⟩]).retained = [] ∧
    (impactRun (fun _ _ => 0 : Fin 2 → Fin 2 → ℤ) (fun _ _ => 2) (fun _ _ => 7)
        ⟨0, 1, 0, -1⟩ [⟨0, 0, some "restaurant"⟩]).popChannel = none ∧
    (impactRun (fun _ _ => 0 : Fin 2 → Fin 2 → ℤ) (fun _ _ => 2) (fun _ _ => 7)
        ⟨0, 1, 0, -1⟩ [⟨0, 0, some "restaurant"⟩]).impactOut = none := by
  have hmask : maskPop (fun _ _ => 0 : Fin 2 → Fin 2 → ℤ) (fun _ _ => 7)
      = (fun _ _ => (0 : ℚ)) := by
    funext i j; simp [maskPop]
  have hvals : gridVals 2 2 (fun _ _ => (0 : ℚ)) = [0, 0, 0, 0] := by
    simp [gridVals, List.ofFn_succ]
  have hmn : listMin (gridVals 2 2 (fun _ _ => (0 : ℚ))) = some 0 := by
    rw [hvals]; norm_num [listMin, List.foldl]
  have hmx : listMax (gridVals 2 2 (fun _ _ => (0 : ℚ))) = some 0 := by
    rw [hvals]; norm_num [listMax, List.foldl]
  have hnorm : normalize_array 255 (maskPop (fun _ _ => 0 : Fin 2 → Fin 2 → ℤ)
      (fun _ _ => 7)) = none := by
    rw [hmask, normalize_array, hmn, hmx]
    simp
  have hinter : intersection_array (fun _ _ => 0 : Fin 2 → Fin 2 → ℤ) (fun _ _ => 2)
      = (fun _ _ => (0 : ℤ)) := by
    funext i j; simp [intersection_array]
  have hcount : countNonzero (fun _ _ => (0 : ℤ) : Fin 2 → Fin 2 → ℤ) = 0 := by
    simp [countNonzero, gridVals, List.ofFn_succ]
  have hret : retainedPts (fun _ _ => 0 : Fin 2 → Fin 2 → ℤ) ⟨0, 1, 0, -1⟩
      [⟨0, 0, some "restaurant"⟩] = [] :=
    retainedPts_eq_nil_of_no_flood _ _ _ (by intro i j; decide)
  refine ⟨?_, ?_, ?_, hret, ?_, ?_⟩
  · show truncQ (gridVals 2 2 (maskPop _ _)).sum = 0
    rw [hmask, hvals]
    norm_num [truncQ]
  · show (get_crop _ _ _).1 = 0
    rw [get_crop, hinter, hcount]
    norm_num [round2, roundHalfEven]
  · show costSum (retainedPts _ _ _) = 0
    rw [hret]; rfl
  · exact hnorm
  · show Option.map
        (fun n => mergePhase (fun i j => toUint8 (n i j))
          (fun i j => ((get_crop (fun _ _ => 0 : Fin 2 → Fin 2 → ℤ) (fun _ _ => 2)
            (pixel_area ⟨0, 1, 0, -1⟩)).2 i j).toNat)
          (band2Writes (retainedPts (fun _ _ => 0 : Fin 2 → Fin 2 → ℤ) ⟨0, 1, 0, -1⟩
            [⟨0, 0, some "restaurant"⟩])))
        (normalize_array 255 (maskPop (fun _ _ => 0 : Fin 2 → Fin 2 → ℤ) (fun _ _ => 7)))
        = none
    rw [hnorm]
    rfl

/-- C4 (amended): with the leading quote the regex requires, the blob
`"amenity"=>"restaurant"` resolves to category food; in general, for any
raw value v containing neither a double quote (the lazy capture would
truncate) nor a newline (default-mode `.` cannot cross it, making the
scanner resume at a later position) and any trailing text, classifying the
legacy blob `"amenity"=>"v"` through `old_amen_group` agrees with
classifying v directly through `amen_group`. -/
theorem legacy_tag_extraction :
    old_amen_group (some "\"amenity\"=>\"restaurant\"") = some "food" ∧
    ∀ v rest : String, '"' ∉ v.data → '\n' ∉ v.data →
      old_amen_group (some ("\"amenity\"=>\"" ++ v ++ "\"" ++ rest)) = amen_group v := by
  exact ⟨by decide, fun v rest hq hn => old_amen_group_agrees v rest hq hn⟩

theorem legacy_tag_extraction_cex :
    old_amen_group (some "amenity\"=>\"restaurant\"") = none ∧
    old_amen_group (some "amenity\"=>\"restaurant\"") ≠ some "food" ∧
    old_amen_group (some "\"amenity\"=>\"bar\"x\"") = some "food" ∧
    amen_group "bar\"x" = none ∧
    old_amen_group (some "\"amenity\"=>\"a\nb\"amenity\"=>\"restaurant\"")
      = some "food" ∧
    amen_group "a\nb" = none := by
  exact ⟨by decide, by decide, by decide, by decide, by decide, by decide⟩

theorem legacy_tag_extraction_witness :
    ('"' ∉ "restaurant".data) ∧ ('\n' ∉ "restaurant".data) ∧
    old_amen_group (some ("\"amenity\"=>\"" ++ "restaurant" ++ "\"" ++ ""))
      = amen_group "restaurant" :=
  ⟨by decide, by decide, legacy_tag_extraction.2 "restaurant" "" (by decide) (by decide)⟩

end FloodImpact
